import Mathlib

/-!
# Verification of the STM32 temperature-sensor firmware control loop

Shallow embedding of the repository `stm-temp-sensor`:

* `readSensors` — `sensors.cpp` (`src/unnamed/part_001`, lines 50–124; the
  `part_000` revision differs only in a constant temperature offset that does
  not affect any claim here),
* `printSensorData` — `src/src/display.cpp`, lines 124–315,
* the main control loop `loop()` — the modular variant in
  `src/unnamed/part_002`, lines 521–602, with the constants of
  `src/include/config.h` and the display-mode enumeration of
  `src/include/display.h`.

Floats are modelled as `Option ℚ`: `none` is the NaN sentinel the code tests
with `isnan`, `some q` a finite value.  Machine `unsigned long` (32-bit on
this MCU) subtraction is modelled by `usub`, which agrees with C unsigned
subtraction for all arguments.  One loop iteration is one `tick`, taking the
single timestamp `currentMillis` the source reads at the top of `loop()`,
the raw button sample, and the sensor values the BME280 would deliver if
read during that iteration.
-/

namespace StmTempSensor

/-- Modulus of the MCU's 32-bit `unsigned long` arithmetic. -/
def u32 : ℕ := 2 ^ 32

/-- C unsigned 32-bit subtraction `a - b`, on natural-number timestamps.
For every `a b : ℕ` this equals `(a mod 2^32 - b mod 2^32) mod 2^32`
computed in two's complement, which is what the source's expressions such as
`currentMillis - lastDebounceTime` evaluate to. -/
def usub (a b : ℕ) : ℕ := (a + (u32 - b % u32)) % u32

theorem u32_pos : 0 < u32 := by norm_num [u32]

/-- For a monotone clock (`b ≤ a`) unsigned subtraction is ordinary
subtraction reduced mod `2^32`. -/
theorem usub_of_le {a b : ℕ} (h : b ≤ a) : usub a b = (a - b) % u32 := by
  have hm : b % u32 + u32 * (b / u32) = b := Nat.mod_add_div b u32
  have hle : b % u32 ≤ b := Nat.mod_le b u32
  have hlt : b % u32 < u32 := Nat.mod_lt _ u32_pos
  have h1 : a + (u32 - b % u32) = (a - b % u32) + u32 := by omega
  have h2 : a - b % u32 = (a - b) + u32 * (b / u32) := by omega
  rw [usub, h1, Nat.add_mod_right, h2, Nat.add_mul_mod_self_left]

/-- Unsigned elapsed time never exceeds true elapsed time. -/
theorem usub_le {a b : ℕ} (h : b ≤ a) : usub a b ≤ a - b := by
  rw [usub_of_le h]; exact Nat.mod_le _ _

/-- With no wraparound, unsigned elapsed time is true elapsed time. -/
theorem usub_eq {a b : ℕ} (h : b ≤ a) (hw : a - b < u32) : usub a b = a - b := by
  rw [usub_of_le h]; exact Nat.mod_eq_of_lt hw

theorem usub_self (a : ℕ) : usub a a = 0 := by
  rw [usub_of_le (le_refl a)]; simp

/-! ## Timing constants (`src/include/config.h`) -/

/-- How often to read the sensor (ms). -/
def sensorReadInterval : ℕ := 1000

/-- How often to update the display (ms). -/
def displayUpdateInterval : ℕ := 100

/-- How long the LED stays on during the blink after a successful read (ms). -/
def ledBlinkDuration : ℕ := 50

/-- Button debounce time (ms). -/
def debounceDelay : ℕ := 50

/-! ## Sensor model (`sensors.h` / `sensors.cpp`) -/

/-- A C `float` as used by this firmware: `none` is NaN (the only float
special value the code distinguishes, via `isnan`), `some q` a finite
reading. -/
abbrev FVal := Option ℚ

/-- Division of a possibly-NaN float by a nonzero finite constant; NaN
propagates, as in IEEE arithmetic. -/
def fdiv (x : FVal) (c : ℚ) : FVal := x.map (fun v => v / c)

/-- The global sensor value cache and error flag defined in `sensors.cpp`
(`part_001` lines 12–19). -/
structure SensorCache where
  currentTemperature : FVal
  currentHumidity : FVal
  currentPressureMbar : FVal
  currentPressureAtm : FVal
  currentAltitude : FVal
  sensorReadError : Bool
deriving DecidableEq

/-- The cache as initialised at boot: all five floats NaN, no error
(`part_001` lines 12–19). -/
def initCache : SensorCache :=
  { currentTemperature := none, currentHumidity := none,
    currentPressureMbar := none, currentPressureAtm := none,
    currentAltitude := none, sensorReadError := false }

/-- LED indicator state: `ledPinOn` is the physical pin (true = LED lit,
i.e. PC13 driven LOW), `ledIsOn` the pending-blink flag and
`ledBlinkStartTime` the blink timestamp of `sensors.cpp`
(`part_001` lines 22–23). -/
structure LedState where
  ledPinOn : Bool
  ledIsOn : Bool
  ledBlinkStartTime : ℕ
deriving DecidableEq

/-- LED state at boot: pin off, no pending blink (`part_001` lines 22–23 and
the `digitalWrite(LED_PIN, HIGH)` in `setup()`). -/
def initLed : LedState :=
  { ledPinOn := false, ledIsOn := false, ledBlinkStartTime := 0 }

/-- The raw values one call of `readSensors` would obtain from the BME280:
`bme.readTemperature()`, `bme.readHumidity()`, `bme.readPressure()` and the
separate sensor access `bme.readAltitude(1013.25)` made on the success path.
Each is an independent bus transaction and may individually return NaN. -/
structure BmeReading where
  temp : FVal
  hum : FVal
  pres : FVal
  altitude : FVal
deriving DecidableEq

/-- The failure test of `readSensors`:
`isnan(temp) || isnan(hum) || isnan(pres)` (`part_001` line 64). -/
def badReading (r : BmeReading) : Bool :=
  r.temp.isNone || r.hum.isNone || r.pres.isNone

/-- `readSensors()` of `sensors.cpp` (`part_001` lines 50–124): LED ON at the
start of the attempt; on any NaN among temp/hum/pres set the error flag and
clear the pending-blink flag, leaving the cache values untouched; on success
clear the flag, update all five cached values, and start the blink timer at
the current time. -/
def readSensors (r : BmeReading) (now : ℕ) (c : SensorCache) (led : LedState) :
    SensorCache × LedState :=
  let led0 : LedState := { led with ledPinOn := true }
  if badReading r then
    ({ c with sensorReadError := true }, { led0 with ledIsOn := false })
  else
    ({ currentTemperature := r.temp,
       currentHumidity := r.hum,
       currentPressureMbar := fdiv r.pres 100,
       currentPressureAtm := fdiv (fdiv r.pres 100) (1013.25 : ℚ),
       currentAltitude := r.altitude,
       sensorReadError := false },
     { led0 with ledIsOn := true, ledBlinkStartTime := now })

/-- C2: `readSensors` preserves all five cached fields and sets
`sensorReadError` when any raw reading is NaN; on a successful read it
updates all five cached fields together (temperature and humidity from the
raw values, pressure converted Pa→mBar→atm, altitude from the separate
altitude reading) and clears `sensorReadError`. -/
theorem readSensors_cache_stale_or_update (r : BmeReading) (now : ℕ)
    (c : SensorCache) (led : LedState) :
    ((readSensors r now c led).1.currentTemperature =
        if badReading r then c.currentTemperature else r.temp) ∧
    ((readSensors r now c led).1.currentHumidity =
        if badReading r then c.currentHumidity else r.hum) ∧
    ((readSensors r now c led).1.currentPressureMbar =
        if badReading r then c.currentPressureMbar else fdiv r.pres 100) ∧
    ((readSensors r now c led).1.currentPressureAtm =
        if badReading r then c.currentPressureAtm
        else fdiv (fdiv r.pres 100) (1013.25 : ℚ)) ∧
    ((readSensors r now c led).1.currentAltitude =
        if badReading r then c.currentAltitude else r.altitude) ∧
    ((readSensors r now c led).1.sensorReadError = badReading r) := by
  unfold readSensors
  by_cases h : badReading r = true <;> simp [h]

/-! ## Display model (`src/include/display.h`, `src/src/display.cpp`) -/

/-- The display-mode cursor (`display.h`). -/
inductive DisplayMode where
  | PRESSURE_MBAR
  | PRESSURE_ATM
  | ALTITUDE
  | ALL_PRESS_ALT
  | UPTIME
deriving DecidableEq

/-- Total number of display modes (`display.cpp` line 28). -/
def NUM_DISPLAY_MODES : ℕ := 5

/-- The integer value of a mode under the C enum. -/
def DisplayMode.toIdx : DisplayMode → ℕ
  | .PRESSURE_MBAR => 0
  | .PRESSURE_ATM => 1
  | .ALTITUDE => 2
  | .ALL_PRESS_ALT => 3
  | .UPTIME => 4

/-- The mode denoted by an enum value in `[0, NUM_DISPLAY_MODES)`. -/
def DisplayMode.ofIdx : ℕ → DisplayMode
  | 0 => .PRESSURE_MBAR
  | 1 => .PRESSURE_ATM
  | 2 => .ALTITUDE
  | 3 => .ALL_PRESS_ALT
  | _ => .UPTIME

/-- The mode-cycling expression of the button handler:
`(DisplayMode)(((int)currentDisplayMode + 1) % NUM_DISPLAY_MODES)`
(`part_002` line 552). -/
def nextDisplayMode (m : DisplayMode) : DisplayMode :=
  DisplayMode.ofIdx ((m.toIdx + 1) % NUM_DISPLAY_MODES)

/-- One drawing operation issued to the display buffer by
`printSensorData`.  `centered` is a `displayCenteredText` call, `cursor` a
`setCursor`, `txt` a `print` of a literal string, `num` a `print` of a float
with the given number of decimals, and `uptimeTxt` the centered formatted
uptime string (days, hours, minutes, seconds) drawn at the given row. -/
inductive DrawOp where
  | clear
  | centered (text : String) (y : ℕ)
  | cursor (x y : ℕ)
  | txt (msg : String)
  | num (v : ℚ) (decimals : ℕ)
  | uptimeTxt (days hours minutes seconds : ℕ) (y : ℕ)
deriving DecidableEq

/-- The frame rendered by `printSensorData()` (`display.cpp` lines 124–315)
as the ordered list of buffer operations between the initial
`clearDisplay()` and the final `display()`.  Inputs: the mode cursor, the
sensor cache, and the two RTC epochs read in the `UPTIME` branch.  The
function reads these globals and writes none of them. -/
def printSensorData (mode : DisplayMode) (c : SensorCache)
    (currentEpoch startTimeEpoch : ℕ) : List DrawOp :=
  [DrawOp.clear] ++
  (if c.sensorReadError ∧ mode ≠ DisplayMode.UPTIME then
    [DrawOp.centered "BME Sensor Error!" 20, DrawOp.centered "Check Connection" 35]
  else
    (match mode with
     | .PRESSURE_MBAR =>
        match c.currentPressureMbar with
        | none => [DrawOp.centered "Reading..." 28]
        | some v => [DrawOp.cursor 10 10, DrawOp.txt "Press: ", DrawOp.num v 2,
                     DrawOp.txt " mBar"]
     | .PRESSURE_ATM =>
        match c.currentPressureAtm with
        | none => [DrawOp.centered "Reading..." 28]
        | some v => [DrawOp.cursor 10 10, DrawOp.txt "Press: ", DrawOp.num v 4,
                     DrawOp.txt " atm"]
     | .ALTITUDE =>
        match c.currentAltitude with
        | none => [DrawOp.centered "Reading..." 28]
        | some v => [DrawOp.cursor 10 10, DrawOp.txt "Alt: ", DrawOp.num v 1,
                     DrawOp.txt " m"]
     | .ALL_PRESS_ALT =>
        if c.sensorReadError then [DrawOp.centered "Sensor Error" 28]
        else
          ([DrawOp.cursor 5 10, DrawOp.txt "Pr(mBar): "] ++
           (match c.currentPressureMbar with
            | none => [DrawOp.txt "---"]
            | some v => [DrawOp.num v 2]) ++
           [DrawOp.cursor 5 25, DrawOp.txt "Pr(atm): "] ++
           (match c.currentPressureAtm with
            | none => [DrawOp.txt "---"]
            | some v => [DrawOp.num v 4]) ++
           [DrawOp.cursor 5 40, DrawOp.txt "Alt(m):  "] ++
           (match c.currentAltitude with
            | none => [DrawOp.txt "---"]
            | some v => [DrawOp.num v 1]))
     | .UPTIME =>
        let totalSeconds :=
          if startTimeEpoch ≤ currentEpoch then currentEpoch - startTimeEpoch else 0
        [DrawOp.centered "Device Uptime" 15,
         DrawOp.uptimeTxt (totalSeconds / (3600 * 24)) ((totalSeconds / 3600) % 24)
           ((totalSeconds / 60) % 60) (totalSeconds % 60) 35]) ++
    (if mode ≠ DisplayMode.UPTIME ∧ mode ≠ DisplayMode.ALL_PRESS_ALT then
      if c.currentTemperature.isNone ∨ c.currentHumidity.isNone then
        [DrawOp.cursor 10 30, DrawOp.txt "Temp: --- C",
         DrawOp.cursor 10 50, DrawOp.txt "Hum:  --- %"]
      else
        [DrawOp.cursor 10 30, DrawOp.txt "Temp: "] ++
        (match c.currentTemperature with
         | none => []
         | some v => [DrawOp.num v 1]) ++
        [DrawOp.txt " C", DrawOp.cursor 10 50, DrawOp.txt "Hum: "] ++
        (match c.currentHumidity with
         | none => []
         | some v => [DrawOp.num v 1]) ++
        [DrawOp.txt " %"]
     else []))

/-! ## Program state and the main loop (`part_002` lines 521–602) -/

/-- The module-level mutable state the `loop()` of the modular variant
touches: the two task timers and the three debounce variables of `main.cpp`
(`part_002` lines 419–428), the mode cursor of `display.cpp`, and the sensor
cache and LED state of `sensors.cpp`.  Booleans for the button use the
electrical convention of the source: `true` = HIGH = released (pull-up),
`false` = LOW = pressed. -/
structure ProgState where
  lastSensorReadTime : ℕ
  lastDisplayUpdateTime : ℕ
  lastDebounceTime : ℕ
  buttonState : Bool
  lastButtonState : Bool
  currentDisplayMode : DisplayMode
  cache : SensorCache
  led : LedState
deriving DecidableEq

/-- Program state at the end of `setup()` (`part_002` lines 433–516), with
`t0` the `millis()` value used to initialise the two task timers.  The
initial `readSensors()` call of `setup()` is not folded in; it is one more
application of `readSensors`/`sensorPhase` and the trace theorems cover it.
-/
def progInit (t0 : ℕ) : ProgState :=
  { lastSensorReadTime := t0, lastDisplayUpdateTime := t0,
    lastDebounceTime := 0, buttonState := true, lastButtonState := true,
    currentDisplayMode := DisplayMode.PRESSURE_MBAR,
    cache := initCache, led := initLed }

/-- The button debounce block of `loop()` (`part_002` lines 527–563).
Returns the updated state and whether the debounced press action (mode
cycle, immediate `printSensorData()` render, display-timer rebase) ran. -/
def buttonPhase (now : ℕ) (reading : Bool) (s : ProgState) : ProgState × Bool :=
  let s1 := if reading ≠ s.lastButtonState then { s with lastDebounceTime := now } else s
  let r :=
    if debounceDelay < usub now s1.lastDebounceTime then
      if reading ≠ s1.buttonState then
        if reading = false then
          ({ s1 with buttonState := reading,
                     currentDisplayMode := nextDisplayMode s1.currentDisplayMode,
                     lastDisplayUpdateTime := now }, true)
        else ({ s1 with buttonState := reading }, false)
      else (s1, false)
    else (s1, false)
  ({ r.1 with lastButtonState := reading }, r.2)

/-- The timed sensor-reading block of `loop()` (`part_002` lines 566–573).
Returns the updated state and whether `readSensors()` ran this tick. -/
def sensorPhase (now : ℕ) (r : BmeReading) (s : ProgState) : ProgState × Bool :=
  if sensorReadInterval ≤ usub now s.lastSensorReadTime then
    let rc := readSensors r now s.cache s.led
    ({ s with lastSensorReadTime := now, cache := rc.1, led := rc.2 }, true)
  else (s, false)

/-- The non-blocking LED blink-off block of `loop()`
(`part_002` lines 575–592). -/
def ledPhase (now : ℕ) (s : ProgState) : ProgState :=
  if s.led.ledIsOn = true ∧ ledBlinkDuration ≤ usub now s.led.ledBlinkStartTime then
    { s with led := { s.led with ledPinOn := false, ledIsOn := false } }
  else s

/-- The timed display-update block of `loop()` (`part_002` lines 594–600).
Returns the updated state and whether the timed `printSensorData()` ran. -/
def displayPhase (now : ℕ) (s : ProgState) : ProgState × Bool :=
  if displayUpdateInterval ≤ usub now s.lastDisplayUpdateTime then
    ({ s with lastDisplayUpdateTime := now }, true)
  else (s, false)

/-- The per-iteration inputs of `loop()`: the `millis()` timestamp read at
the top, the raw `digitalRead(BUTTON_PIN)` sample, and the values the BME280
would deliver if `readSensors()` runs this iteration. -/
structure TickInput where
  now : ℕ
  reading : Bool
  bme : BmeReading
deriving DecidableEq

/-- Which tasks ran during one `loop()` iteration: the debounced press
action (with its out-of-cycle render), the sensor read, and the timed
display update. -/
structure TickResult where
  pressFired : Bool
  sensorRan : Bool
  displayRan : Bool
deriving DecidableEq

/-- One iteration of `loop()` (`part_002` lines 521–602), in source order:
button debounce, timed sensor read, LED blink-off check, timed display
update. -/
def tick (inp : TickInput) (s : ProgState) : ProgState × TickResult :=
  let b := buttonPhase inp.now inp.reading s
  let sr := sensorPhase inp.now inp.bme b.1
  let s3 := ledPhase inp.now sr.1
  let d := displayPhase inp.now s3
  (d.1, { pressFired := b.2, sensorRan := sr.2, displayRan := d.2 })

/-- Iterated `loop()` over a list of per-iteration inputs. -/
def run (s : ProgState) : List TickInput → ProgState
  | [] => s
  | t :: ts => run (tick t s).1 ts

/-! ## Structural lemmas about the loop phases -/

/-- The sensor timer's firing condition at a tick
(`currentMillis - lastSensorReadTime >= sensorReadInterval`). -/
abbrev sensorFires (inp : TickInput) (s : ProgState) : Prop :=
  sensorReadInterval ≤ usub inp.now s.lastSensorReadTime

theorem buttonPhase_fixed (now : ℕ) (reading : Bool) (s : ProgState) :
    (buttonPhase now reading s).1.led = s.led ∧
    (buttonPhase now reading s).1.cache = s.cache ∧
    (buttonPhase now reading s).1.lastSensorReadTime = s.lastSensorReadTime ∧
    (buttonPhase now reading s).1.lastButtonState = reading := by
  unfold buttonPhase
  dsimp only
  split_ifs <;> exact ⟨rfl, rfl, rfl, rfl⟩

theorem buttonPhase_ldu (now : ℕ) (reading : Bool) (s : ProgState) :
    (buttonPhase now reading s).1.lastDisplayUpdateTime = s.lastDisplayUpdateTime ∨
    (buttonPhase now reading s).1.lastDisplayUpdateTime = now := by
  unfold buttonPhase
  dsimp only
  split_ifs <;> simp

theorem buttonPhase_ldt (now : ℕ) (reading : Bool) (s : ProgState) :
    (buttonPhase now reading s).1.lastDebounceTime =
      if reading ≠ s.lastButtonState then now else s.lastDebounceTime := by
  unfold buttonPhase
  dsimp only
  split_ifs <;> simp_all

theorem sensorPhase_eq (now : ℕ) (r : BmeReading) (s : ProgState) :
    sensorPhase now r s =
      if sensorReadInterval ≤ usub now s.lastSensorReadTime then
        ({ s with lastSensorReadTime := now,
                  cache := (readSensors r now s.cache s.led).1,
                  led := (readSensors r now s.cache s.led).2 }, true)
      else (s, false) := rfl

theorem sensorPhase_fixed (now : ℕ) (r : BmeReading) (s : ProgState) :
    (sensorPhase now r s).1.lastDisplayUpdateTime = s.lastDisplayUpdateTime ∧
    (sensorPhase now r s).1.lastDebounceTime = s.lastDebounceTime ∧
    (sensorPhase now r s).1.buttonState = s.buttonState ∧
    (sensorPhase now r s).1.lastButtonState = s.lastButtonState ∧
    (sensorPhase now r s).1.currentDisplayMode = s.currentDisplayMode := by
  unfold sensorPhase
  dsimp only
  split_ifs <;> exact ⟨rfl, rfl, rfl, rfl, rfl⟩

theorem ledPhase_fixed (now : ℕ) (s : ProgState) :
    (ledPhase now s).lastSensorReadTime = s.lastSensorReadTime ∧
    (ledPhase now s).lastDisplayUpdateTime = s.lastDisplayUpdateTime ∧
    (ledPhase now s).lastDebounceTime = s.lastDebounceTime ∧
    (ledPhase now s).buttonState = s.buttonState ∧
    (ledPhase now s).lastButtonState = s.lastButtonState ∧
    (ledPhase now s).currentDisplayMode = s.currentDisplayMode ∧
    (ledPhase now s).cache = s.cache := by
  unfold ledPhase
  split_ifs <;> exact ⟨rfl, rfl, rfl, rfl, rfl, rfl, rfl⟩

theorem ledPhase_led (now : ℕ) (s : ProgState) :
    (ledPhase now s).led =
      if s.led.ledIsOn = true ∧ ledBlinkDuration ≤ usub now s.led.ledBlinkStartTime
      then { s.led with ledPinOn := false, ledIsOn := false }
      else s.led := by
  unfold ledPhase
  split_ifs <;> rfl

theorem displayPhase_fixed (now : ℕ) (s : ProgState) :
    (displayPhase now s).1.lastSensorReadTime = s.lastSensorReadTime ∧
    (displayPhase now s).1.lastDebounceTime = s.lastDebounceTime ∧
    (displayPhase now s).1.buttonState = s.buttonState ∧
    (displayPhase now s).1.lastButtonState = s.lastButtonState ∧
    (displayPhase now s).1.currentDisplayMode = s.currentDisplayMode ∧
    (displayPhase now s).1.cache = s.cache ∧
    (displayPhase now s).1.led = s.led := by
  unfold displayPhase
  split_ifs <;> exact ⟨rfl, rfl, rfl, rfl, rfl, rfl, rfl⟩

theorem tick_unfold (inp : TickInput) (s : ProgState) :
    tick inp s =
      ((displayPhase inp.now (ledPhase inp.now
          (sensorPhase inp.now inp.bme (buttonPhase inp.now inp.reading s).1).1)).1,
       { pressFired := (buttonPhase inp.now inp.reading s).2,
         sensorRan := (sensorPhase inp.now inp.bme (buttonPhase inp.now inp.reading s).1).2,
         displayRan := (displayPhase inp.now (ledPhase inp.now
           (sensorPhase inp.now inp.bme (buttonPhase inp.now inp.reading s).1).1)).2 }) := rfl

/-- A tick can change the debounced `buttonState` only if the raw sample
equals the previous raw sample and more than `debounceDelay` ms of the
32-bit clock have elapsed since `lastDebounceTime`; in particular a tick
that itself observes a raw transition never changes the debounced state. -/
theorem buttonPhase_change (now : ℕ) (reading : Bool) (s : ProgState)
    (h : (buttonPhase now reading s).1.buttonState ≠ s.buttonState) :
    reading = s.lastButtonState ∧ debounceDelay < usub now s.lastDebounceTime := by
  by_cases hr : reading = s.lastButtonState
  · refine ⟨hr, ?_⟩
    by_cases hst : debounceDelay < usub now s.lastDebounceTime
    · exact hst
    · exfalso
      apply h
      unfold buttonPhase
      dsimp only
      simp [hr, hst]
  · exfalso
    apply h
    unfold buttonPhase
    dsimp only
    simp [hr, usub_self]

/-- When the debounced press action fires, the mode cursor advances by one
modulo the number of modes, the display timer is rebased to `now`, the raw
sample is LOW, and the previous debounced state was HIGH (released). -/
theorem buttonPhase_press_effect (now : ℕ) (reading : Bool) (s : ProgState)
    (h : (buttonPhase now reading s).2 = true) :
    (buttonPhase now reading s).1.currentDisplayMode
        = nextDisplayMode s.currentDisplayMode ∧
    (buttonPhase now reading s).1.lastDisplayUpdateTime = now ∧
    reading = false ∧ s.buttonState = true := by
  unfold buttonPhase at h ⊢
  dsimp only at h ⊢
  split_ifs at h ⊢ <;> simp_all

theorem sensorPhase_ran (now : ℕ) (r : BmeReading) (s : ProgState) :
    (sensorPhase now r s).2 = true ↔
      sensorReadInterval ≤ usub now s.lastSensorReadTime := by
  unfold sensorPhase
  split_ifs with hc <;> simp [hc]

theorem displayPhase_ran (now : ℕ) (s : ProgState) :
    (displayPhase now s).2 = true ↔
      displayUpdateInterval ≤ usub now s.lastDisplayUpdateTime := by
  unfold displayPhase
  split_ifs with hc <;> simp [hc]

theorem displayPhase_last (now : ℕ) (s : ProgState) :
    (displayPhase now s).1.lastDisplayUpdateTime =
      if displayUpdateInterval ≤ usub now s.lastDisplayUpdateTime then now
      else s.lastDisplayUpdateTime := by
  unfold displayPhase
  split_ifs <;> rfl

/-- The LED state after one tick, as a function of the pre-tick state: a
sensor read turns the LED ON and, on failure, clears the pending-blink flag
while on success arms it with start time `now`; otherwise the blink-off
check fires exactly when the flag is armed and the blink duration has
elapsed. -/
def ledAfterTick (inp : TickInput) (s : ProgState) : LedState :=
  if sensorFires inp s then
    if badReading inp.bme then { s.led with ledPinOn := true, ledIsOn := false }
    else { ledPinOn := true, ledIsOn := true, ledBlinkStartTime := inp.now }
  else if s.led.ledIsOn = true ∧ ledBlinkDuration ≤ usub inp.now s.led.ledBlinkStartTime then
    { s.led with ledPinOn := false, ledIsOn := false }
  else s.led

theorem tick_led (inp : TickInput) (s : ProgState) :
    (tick inp s).1.led = ledAfterTick inp s := by
  have hb := buttonPhase_fixed inp.now inp.reading s
  rw [tick_unfold]
  dsimp only
  rw [(displayPhase_fixed inp.now _).2.2.2.2.2.2, ledPhase_led, sensorPhase_eq,
      hb.2.2.1]
  unfold ledAfterTick sensorFires
  by_cases hf : sensorReadInterval ≤ usub inp.now s.lastSensorReadTime
  · rw [if_pos hf, if_pos hf]
    dsimp only
    rw [hb.1, hb.2.1]
    unfold readSensors
    by_cases hbad : badReading inp.bme = true
    · rw [if_pos hbad, if_pos hbad]
      dsimp only
      simp
    · rw [if_neg hbad, if_neg hbad]
      dsimp only
      simp [usub_self, ledBlinkDuration]
  · rw [if_neg hf, if_neg hf]
    dsimp only
    rw [hb.1]

theorem tick_sensorLast (inp : TickInput) (s : ProgState) :
    (tick inp s).1.lastSensorReadTime =
      if sensorFires inp s then inp.now else s.lastSensorReadTime := by
  have hb := buttonPhase_fixed inp.now inp.reading s
  rw [tick_unfold]
  dsimp only
  rw [(displayPhase_fixed inp.now _).1, (ledPhase_fixed inp.now _).1,
      sensorPhase_eq, hb.2.2.1]
  unfold sensorFires
  by_cases hf : sensorReadInterval ≤ usub inp.now s.lastSensorReadTime
  · rw [if_pos hf, if_pos hf]
  · rw [if_neg hf, if_neg hf]
    exact hb.2.2.1

theorem tick_cache (inp : TickInput) (s : ProgState) :
    (tick inp s).1.cache =
      if sensorFires inp s then (readSensors inp.bme inp.now s.cache s.led).1
      else s.cache := by
  have hb := buttonPhase_fixed inp.now inp.reading s
  rw [tick_unfold]
  dsimp only
  rw [(displayPhase_fixed inp.now _).2.2.2.2.2.1, (ledPhase_fixed inp.now _).2.2.2.2.2.2,
      sensorPhase_eq, hb.2.2.1]
  unfold sensorFires
  by_cases hf : sensorReadInterval ≤ usub inp.now s.lastSensorReadTime
  · rw [if_pos hf, if_pos hf]
    dsimp only
    rw [hb.1, hb.2.1]
  · rw [if_neg hf, if_neg hf]
    dsimp only
    rw [hb.2.1]

theorem tick_mode (inp : TickInput) (s : ProgState) :
    (tick inp s).1.currentDisplayMode =
      (buttonPhase inp.now inp.reading s).1.currentDisplayMode := by
  rw [tick_unfold]
  dsimp only
  rw [(displayPhase_fixed inp.now _).2.2.2.2.1, (ledPhase_fixed inp.now _).2.2.2.2.2.1,
      (sensorPhase_fixed inp.now inp.bme _).2.2.2.2]

theorem tick_ldu (inp : TickInput) (s : ProgState) :
    (tick inp s).1.lastDisplayUpdateTime =
      (if displayUpdateInterval ≤
          usub inp.now (buttonPhase inp.now inp.reading s).1.lastDisplayUpdateTime
       then inp.now
       else (buttonPhase inp.now inp.reading s).1.lastDisplayUpdateTime) := by
  rw [tick_unfold]
  dsimp only
  rw [displayPhase_last, (ledPhase_fixed inp.now _).2.1,
      (sensorPhase_fixed inp.now inp.bme _).1]

theorem tick_displayRan (inp : TickInput) (s : ProgState) :
    (tick inp s).2.displayRan = true ↔
      displayUpdateInterval ≤
        usub inp.now (buttonPhase inp.now inp.reading s).1.lastDisplayUpdateTime := by
  rw [tick_unfold]
  dsimp only
  rw [displayPhase_ran, (ledPhase_fixed inp.now _).2.1,
      (sensorPhase_fixed inp.now inp.bme _).1]

theorem tick_sensorRan (inp : TickInput) (s : ProgState) :
    (tick inp s).2.sensorRan = true ↔ sensorFires inp s := by
  rw [tick_unfold]
  dsimp only
  rw [sensorPhase_ran, (buttonPhase_fixed inp.now inp.reading s).2.2.1]

/-! ## C4 — the two scheduler timers -/

/-- C4: for each of the two scheduler timers (sensor timer with period
`sensorReadInterval`, display timer with period `displayUpdateInterval`),
on a tick at time `now` the corresponding task runs if and only if
`now - last_run >= period`, and when it runs `last_run` is set to `now`
(not to `now + period`).  For the display timer, `last_run` is its value at
the point of the check, i.e. after the button block of the same iteration
(which may have rebased it to `now`).  The hypotheses state that the clock
is monotone and that less than `2^32` ms elapsed since the timer last ran,
which holds in every reachable state of the device. -/
theorem scheduler_timer_contract (s : ProgState) (inp : TickInput)
    (hs1 : s.lastSensorReadTime ≤ inp.now)
    (hs2 : inp.now - s.lastSensorReadTime < u32)
    (hd1 : s.lastDisplayUpdateTime ≤ inp.now)
    (hd2 : inp.now - s.lastDisplayUpdateTime < u32) :
    ((tick inp s).2.sensorRan = true ↔
        sensorReadInterval ≤ inp.now - s.lastSensorReadTime) ∧
    (tick inp s).1.lastSensorReadTime =
      (if sensorReadInterval ≤ inp.now - s.lastSensorReadTime then inp.now
       else s.lastSensorReadTime) ∧
    ((tick inp s).2.displayRan = true ↔
        displayUpdateInterval ≤
          inp.now - (buttonPhase inp.now inp.reading s).1.lastDisplayUpdateTime) ∧
    (tick inp s).1.lastDisplayUpdateTime =
      (if displayUpdateInterval ≤
          inp.now - (buttonPhase inp.now inp.reading s).1.lastDisplayUpdateTime
       then inp.now
       else (buttonPhase inp.now inp.reading s).1.lastDisplayUpdateTime) := by
  have hu : usub inp.now s.lastSensorReadTime = inp.now - s.lastSensorReadTime :=
    usub_eq hs1 hs2
  have hbd : (buttonPhase inp.now inp.reading s).1.lastDisplayUpdateTime ≤ inp.now ∧
      inp.now - (buttonPhase inp.now inp.reading s).1.lastDisplayUpdateTime < u32 := by
    rcases buttonPhase_ldu inp.now inp.reading s with h | h <;> rw [h]
    · exact ⟨hd1, hd2⟩
    · exact ⟨le_refl _, by rw [Nat.sub_self]; exact u32_pos⟩
  have hud : usub inp.now (buttonPhase inp.now inp.reading s).1.lastDisplayUpdateTime =
      inp.now - (buttonPhase inp.now inp.reading s).1.lastDisplayUpdateTime :=
    usub_eq hbd.1 hbd.2
  refine ⟨?_, ?_, ?_, ?_⟩
  · rw [tick_sensorRan]
    unfold sensorFires
    rw [hu]
  · rw [tick_sensorLast]
    unfold sensorFires
    rw [hu]
  · rw [tick_displayRan, hud]
  · rw [tick_ldu, hud]

theorem scheduler_timer_contract_witness :
    (tick ⟨1000, true, ⟨none, none, none, none⟩⟩ (progInit 0)).2.sensorRan = true ∧
    (tick ⟨1000, true, ⟨none, none, none, none⟩⟩ (progInit 0)).1.lastSensorReadTime
      = 1000 ∧
    (tick ⟨1000, true, ⟨none, none, none, none⟩⟩ (progInit 0)).2.displayRan = true := by
  have h := scheduler_timer_contract (progInit 0) ⟨1000, true, ⟨none, none, none, none⟩⟩
    (by decide) (by decide) (by decide) (by decide)
  refine ⟨h.1.mpr (by decide), ?_, h.2.2.1.mpr (by decide)⟩
  rw [h.2.1]
  decide

/-! ## C5 — the debounced short-press action -/

/-- C5: when the debounced press action fires at time `now`, the display
mode cursor advances by exactly one position modulo the number of modes, an
immediate out-of-cycle render occurs (`pressFired` marks exactly the branch
that calls `printSensorData()`), the display timer's `last_run` is rebased
to `now`, the timed display refresh does not additionally fire in the same
tick, and the button block modifies no other state: the sensor cache, LED
state and sensor timer are untouched by it. -/
theorem short_press_action (s : ProgState) (inp : TickInput)
    (h : (tick inp s).2.pressFired = true) :
    (tick inp s).1.currentDisplayMode = nextDisplayMode s.currentDisplayMode ∧
    (buttonPhase inp.now inp.reading s).1.lastDisplayUpdateTime = inp.now ∧
    (tick inp s).2.displayRan = false ∧
    (tick inp s).1.lastDisplayUpdateTime = inp.now ∧
    (buttonPhase inp.now inp.reading s).1.cache = s.cache ∧
    (buttonPhase inp.now inp.reading s).1.led = s.led ∧
    (buttonPhase inp.now inp.reading s).1.lastSensorReadTime = s.lastSensorReadTime := by
  have hp : (buttonPhase inp.now inp.reading s).2 = true := by
    rw [tick_unfold] at h
    exact h
  have he := buttonPhase_press_effect inp.now inp.reading s hp
  have hb := buttonPhase_fixed inp.now inp.reading s
  have hnd : ¬ displayUpdateInterval ≤
      usub inp.now (buttonPhase inp.now inp.reading s).1.lastDisplayUpdateTime := by
    rw [he.2.1, usub_self]
    decide
  refine ⟨?_, he.2.1, ?_, ?_, hb.2.1, hb.1, hb.2.2.1⟩
  · rw [tick_mode, he.1]
  · cases hdr : (tick inp s).2.displayRan
    · rfl
    · exact absurd ((tick_displayRan inp s).mp hdr) hnd
  · rw [tick_ldu, if_neg hnd, he.2.1]

theorem short_press_action_witness :
    (tick ⟨100, false, ⟨none, none, none, none⟩⟩
        { progInit 0 with lastButtonState := false }).1.currentDisplayMode
      = DisplayMode.PRESSURE_ATM ∧
    (tick ⟨100, false, ⟨none, none, none, none⟩⟩
        { progInit 0 with lastButtonState := false }).2.displayRan = false := by
  have h := short_press_action { progInit 0 with lastButtonState := false }
    ⟨100, false, ⟨none, none, none, none⟩⟩ (by decide)
  exact ⟨h.1.trans (by decide), h.2.2.1⟩

/-! ## C8 — idempotence of the display task -/

/-- The display task as invoked by the loop: `printSensorData()` reads the
mode cursor, the sensor cache and (in `UPTIME` mode) the RTC epochs, and
writes no program state — `display.cpp` lines 124–315 assign to no global;
the rendered frame is a function of those inputs alone, and the buffer is
cleared at the start of every call. -/
def displayTask (s : ProgState) (currentEpoch startTimeEpoch : ℕ) :
    ProgState × List DrawOp :=
  (s, printSensorData s.currentDisplayMode s.cache currentEpoch startTimeEpoch)

/-- C8: calling the display-render task twice within the same tick (same
state, same RTC reading) produces the same rendered frame as calling it
once, and neither call advances any program state. -/
theorem display_task_idempotent (s : ProgState) (currentEpoch startTimeEpoch : ℕ) :
    displayTask (displayTask s currentEpoch startTimeEpoch).1 currentEpoch startTimeEpoch
      = displayTask s currentEpoch startTimeEpoch ∧
    (displayTask s currentEpoch startTimeEpoch).1 = s :=
  ⟨rfl, rfl⟩

/-! ## C3 — debounce over arbitrary sample sequences -/

/-- Tick timestamps are nondecreasing, starting at `t0`. -/
def timesMonoB (t0 : ℕ) : List TickInput → Bool
  | [] => true
  | t :: ts => decide (t0 ≤ t.now) && timesMonoB t.now ts

/-- The timestamp of the last tick of the trace (`t0` for the empty trace).
-/
def endTime (t0 : ℕ) : List TickInput → ℕ
  | [] => t0
  | t :: ts => endTime t.now ts

/-- The last raw sample of the trace (`r0` for the empty trace). -/
def endReading (r0 : Bool) : List TickInput → Bool
  | [] => r0
  | t :: ts => endReading t.reading ts

/-- Timestamps of the ticks at which the raw sample differs from the
previous tick's raw sample (`prev` before the first tick) — the raw
transitions, at which the source resets `lastDebounceTime`. -/
def transTimes (prev : Bool) : List TickInput → List ℕ
  | [] => []
  | t :: ts => (if t.reading ≠ prev then [t.now] else []) ++ transTimes t.reading ts

theorem run_nil (s : ProgState) : run s [] = s := rfl

theorem run_cons (t : TickInput) (ts : List TickInput) (s : ProgState) :
    run s (t :: ts) = run (tick t s).1 ts := rfl

theorem endTime_cons (t0 : ℕ) (t : TickInput) (ts : List TickInput) :
    endTime t0 (t :: ts) = endTime t.now ts := rfl

theorem endReading_cons (r0 : Bool) (t : TickInput) (ts : List TickInput) :
    endReading r0 (t :: ts) = endReading t.reading ts := rfl

theorem timesMonoB_weaken {a b : ℕ} (l : List TickInput) (h : a ≤ b)
    (hm : timesMonoB b l = true) : timesMonoB a l = true := by
  cases l with
  | nil => rfl
  | cons t ts =>
    simp only [timesMonoB, Bool.and_eq_true, decide_eq_true_eq] at hm ⊢
    exact ⟨le_trans h hm.1, hm.2⟩

theorem timesMonoB_append (l l' : List TickInput) : ∀ t0 : ℕ,
    timesMonoB t0 (l ++ l') = (timesMonoB t0 l && timesMonoB (endTime t0 l) l') := by
  induction l with
  | nil => intro t0; simp [timesMonoB, endTime]
  | cons t ts ih => intro t0; simp [timesMonoB, endTime, ih, Bool.and_assoc]

theorem transTimes_append (l l' : List TickInput) : ∀ p : Bool,
    transTimes p (l ++ l') = transTimes p l ++ transTimes (endReading p l) l' := by
  induction l with
  | nil => intro p; simp [transTimes, endReading]
  | cons t ts ih => intro p; simp [transTimes, endReading, ih]

theorem endTime_mono {a b : ℕ} (h : a ≤ b) : ∀ l : List TickInput,
    endTime a l ≤ endTime b l
  | [] => h
  | _ :: _ => le_refl _

theorem tick_ldt (inp : TickInput) (s : ProgState) :
    (tick inp s).1.lastDebounceTime =
      if inp.reading ≠ s.lastButtonState then inp.now else s.lastDebounceTime := by
  rw [tick_unfold]
  dsimp only
  rw [(displayPhase_fixed inp.now _).2.1, (ledPhase_fixed inp.now _).2.2.1,
      (sensorPhase_fixed inp.now inp.bme _).2.1, buttonPhase_ldt]

theorem tick_lastButton (inp : TickInput) (s : ProgState) :
    (tick inp s).1.lastButtonState = inp.reading := by
  rw [tick_unfold]
  dsimp only
  rw [(displayPhase_fixed inp.now _).2.2.2.1, (ledPhase_fixed inp.now _).2.2.2.2.1,
      (sensorPhase_fixed inp.now inp.bme _).2.2.2.1,
      (buttonPhase_fixed inp.now inp.reading s).2.2.2]

theorem tick_buttonState (inp : TickInput) (s : ProgState) :
    (tick inp s).1.buttonState = (buttonPhase inp.now inp.reading s).1.buttonState := by
  rw [tick_unfold]
  dsimp only
  rw [(displayPhase_fixed inp.now _).2.2.1, (ledPhase_fixed inp.now _).2.2.2.1,
      (sensorPhase_fixed inp.now inp.bme _).2.2.1]

/-- Along a run with nondecreasing timestamps, `lastDebounceTime` is
nondecreasing, bounded by the last timestamp, `lastButtonState` tracks the
last raw sample, and `lastDebounceTime` is at or after every raw-transition
time. -/
theorem run_debounce (l : List TickInput) : ∀ s : ProgState,
    timesMonoB s.lastDebounceTime l = true →
    s.lastDebounceTime ≤ (run s l).lastDebounceTime ∧
    (run s l).lastDebounceTime ≤ endTime s.lastDebounceTime l ∧
    (run s l).lastButtonState = endReading s.lastButtonState l ∧
    ∀ τ ∈ transTimes s.lastButtonState l, τ ≤ (run s l).lastDebounceTime := by
  induction l with
  | nil =>
    intro s _
    exact ⟨le_refl _, le_refl _, rfl, by intro τ hτ; cases hτ⟩
  | cons t ts ih =>
    intro s hm
    simp only [timesMonoB, Bool.and_eq_true, decide_eq_true_eq] at hm
    obtain ⟨h0, hm2⟩ := hm
    have hldt := tick_ldt t s
    have hldt_le : (tick t s).1.lastDebounceTime ≤ t.now := by
      rw [hldt]; split_ifs; exacts [le_refl _, h0]
    have hldt_ge : s.lastDebounceTime ≤ (tick t s).1.lastDebounceTime := by
      rw [hldt]; split_ifs; exacts [h0, le_refl _]
    have hmono2 : timesMonoB (tick t s).1.lastDebounceTime ts = true :=
      timesMonoB_weaken ts hldt_le hm2
    obtain ⟨ih1, ih2, ih3, ih4⟩ := ih (tick t s).1 hmono2
    have hlb := tick_lastButton t s
    rw [run_cons, endTime_cons, endReading_cons]
    refine ⟨le_trans hldt_ge ih1, ?_, ?_, ?_⟩
    · calc (run (tick t s).1 ts).lastDebounceTime
          ≤ endTime (tick t s).1.lastDebounceTime ts := ih2
        _ ≤ endTime t.now ts := endTime_mono hldt_le ts
    · rw [ih3, hlb]
    · intro τ hτ
      simp only [transTimes, List.mem_append] at hτ
      rcases hτ with hτ | hτ
      · by_cases hne : t.reading ≠ s.lastButtonState
        · rw [if_pos hne] at hτ
          simp only [List.mem_singleton] at hτ
          have hset : (tick t s).1.lastDebounceTime = t.now := by
            rw [hldt, if_pos hne]
          rw [hτ, ← hset]
          exact ih1
        · rw [if_neg hne] at hτ
          cases hτ
      · rw [hlb] at ih4
        exact ih4 τ hτ

/-- C3: over every sequence of raw button samples with nondecreasing
timestamps, the debounced `buttonState` changes at a tick only when the raw
sample has remained unchanged for more than `debounceDelay` ms since every
raw transition in the trace (in particular since the last one).  The
instance `τ = inp.now` gives the corollary that a tick observing a raw
change — a single noisy sample — never changes the debounced state. -/
theorem debounced_state_stability (s : ProgState) (l : List TickInput)
    (inp : TickInput)
    (hmono : timesMonoB s.lastDebounceTime (l ++ [inp]) = true)
    (hchange : (tick inp (run s l)).1.buttonState ≠ (run s l).buttonState) :
    ∀ τ ∈ transTimes s.lastButtonState (l ++ [inp]),
      debounceDelay < inp.now - τ := by
  rw [timesMonoB_append] at hmono
  simp only [Bool.and_eq_true] at hmono
  obtain ⟨hml, hm1⟩ := hmono
  simp only [timesMonoB, Bool.and_eq_true, decide_eq_true_eq] at hm1
  have hend : endTime s.lastDebounceTime l ≤ inp.now := hm1.1
  obtain ⟨hge, hle, hlbs, htrans⟩ := run_debounce l s hml
  have hbs : (buttonPhase inp.now inp.reading (run s l)).1.buttonState
      ≠ (run s l).buttonState := by
    rw [← tick_buttonState]
    exact hchange
  obtain ⟨hrd, hdeb⟩ := buttonPhase_change inp.now inp.reading (run s l) hbs
  have hmle : (run s l).lastDebounceTime ≤ inp.now := le_trans hle hend
  have hd2 : debounceDelay < inp.now - (run s l).lastDebounceTime :=
    lt_of_lt_of_le hdeb (usub_le hmle)
  intro τ hτ
  rw [transTimes_append] at hτ
  simp only [List.mem_append] at hτ
  rcases hτ with hτ | hτ
  · have hτm : τ ≤ (run s l).lastDebounceTime := htrans τ hτ
    omega
  · rw [← hlbs] at hτ
    simp [transTimes, hrd] at hτ

theorem debounced_state_stability_witness :
    debounceDelay < 103 - 51 :=
  debounced_state_stability (progInit 0)
    [⟨51, false, ⟨none, none, none, none⟩⟩]
    ⟨103, false, ⟨none, none, none, none⟩⟩ (by decide) (by decide)
    51 (by decide)

/-! ## C6, C7 — the indicator LED -/

/-- No successful sensor read occurs along the trace from state `s`: each
tick either does not run the sensor task or reads NaN. -/
def noSuccessB (s : ProgState) : List TickInput → Bool
  | [] => true
  | t :: ts =>
      !(decide (sensorFires t s) && !badReading t.bme) && noSuccessB (tick t s).1 ts

/-- The sensor task does not run at all along the trace from state `s`. -/
def noReadB (s : ProgState) : List TickInput → Bool
  | [] => true
  | t :: ts => !decide (sensorFires t s) && noReadB (tick t s).1 ts

/-- The solid-error LED latch (pin ON, pending blink clear) is preserved by
every tick that does not perform a successful read. -/
theorem led_error_latch_run (l : List TickInput) : ∀ s : ProgState,
    s.led.ledPinOn = true → s.led.ledIsOn = false →
    noSuccessB s l = true →
    (run s l).led.ledPinOn = true ∧ (run s l).led.ledIsOn = false := by
  induction l with
  | nil =>
    intro s h1 h2 _
    exact ⟨h1, h2⟩
  | cons t ts ih =>
    intro s hpin hflag hns
    simp only [noSuccessB, Bool.and_eq_true, Bool.not_eq_true'] at hns
    obtain ⟨h1, h2⟩ := hns
    rw [run_cons]
    have hled := tick_led t s
    by_cases hf : sensorFires t s
    · have hb : badReading t.bme = true := by
        cases hbb : badReading t.bme
        · rw [hbb] at h1
          simp [hf] at h1
        · rfl
      rw [ledAfterTick, if_pos hf, if_pos hb] at hled
      exact ih (tick t s).1 (by rw [hled]) (by rw [hled]) h2
    · rw [ledAfterTick, if_neg hf, if_neg (by simp [hflag])] at hled
      exact ih (tick t s).1 (by rw [hled]; exact hpin) (by rw [hled]; exact hflag) h2

/-- C6: after a tick whose sensor read fails, the indicator LED is solidly
ON and the pending-blink flag `ledIsOn` is false, so no automatic OFF is
scheduled; and through every subsequent tick in which no successful read
occurs the LED stays ON with the flag still clear — a failed read is never
followed by the LED turning OFF before a success. -/
theorem failed_read_led_solid (s : ProgState) (inp : TickInput)
    (l : List TickInput)
    (hfire : sensorFires inp s) (hbad : badReading inp.bme = true)
    (hns : noSuccessB (tick inp s).1 l = true) :
    (run (tick inp s).1 l).led.ledPinOn = true ∧
    (run (tick inp s).1 l).led.ledIsOn = false := by
  have h0 := tick_led inp s
  rw [ledAfterTick, if_pos hfire, if_pos hbad] at h0
  exact led_error_latch_run l (tick inp s).1 (by rw [h0]) (by rw [h0]) hns

theorem failed_read_led_solid_witness :
    (run (tick ⟨1000, true, ⟨none, none, none, none⟩⟩ (progInit 0)).1
        [⟨1500, true, ⟨some 25, some 40, some 101325, some 5⟩⟩]).led.ledPinOn = true ∧
    (run (tick ⟨1000, true, ⟨none, none, none, none⟩⟩ (progInit 0)).1
        [⟨1500, true, ⟨some 25, some 40, some 101325, some 5⟩⟩]).led.ledIsOn = false :=
  failed_read_led_solid (progInit 0) ⟨1000, true, ⟨none, none, none, none⟩⟩
    [⟨1500, true, ⟨some 25, some 40, some 101325, some 5⟩⟩]
    (by decide) (by decide) (by decide)

/-- With the pending-blink flag clear, ticks that do not run the sensor
task leave the LED state unchanged: the blink-off check cannot fire again.
-/
theorem led_off_latch_run (l : List TickInput) : ∀ s : ProgState,
    s.led.ledIsOn = false →
    noReadB s l = true →
    (run s l).led = s.led := by
  induction l with
  | nil =>
    intro s _ _
    rfl
  | cons t ts ih =>
    intro s hoff hnr
    simp only [noReadB, Bool.and_eq_true, Bool.not_eq_true'] at hnr
    obtain ⟨h1, h2⟩ := hnr
    have hf : ¬ sensorFires t s := of_decide_eq_false h1
    have hled : (tick t s).1.led = s.led := by
      rw [tick_led, ledAfterTick, if_neg hf, if_neg (by simp [hoff])]
    rw [run_cons, ih (tick t s).1 (by rw [hled]; exact hoff) h2, hled]

/-- From a blink-pending state (LED ON, flag armed at `t0`), over ticks with
no sensor read: still pending while every tick is earlier than
`t0 + ledBlinkDuration`; OFF with the flag cleared once some tick reaches
the deadline. -/
theorem blink_run (l : List TickInput) : ∀ (s : ProgState) (t0 : ℕ),
    s.led = { ledPinOn := true, ledIsOn := true, ledBlinkStartTime := t0 } →
    noReadB s l = true →
    (run s l).led =
      (if l.any (fun t => decide (ledBlinkDuration ≤ usub t.now t0)) = true then
        { ledPinOn := false, ledIsOn := false, ledBlinkStartTime := t0 }
      else { ledPinOn := true, ledIsOn := true, ledBlinkStartTime := t0 }) := by
  induction l with
  | nil =>
    intro s t0 h _
    simpa using h
  | cons t ts ih =>
    intro s t0 h hnr
    simp only [noReadB, Bool.and_eq_true, Bool.not_eq_true'] at hnr
    obtain ⟨h1, h2⟩ := hnr
    have hf : ¬ sensorFires t s := of_decide_eq_false h1
    by_cases hq : ledBlinkDuration ≤ usub t.now t0
    · have hcond : s.led.ledIsOn = true ∧
          ledBlinkDuration ≤ usub t.now s.led.ledBlinkStartTime := by
        rw [h]
        exact ⟨rfl, hq⟩
      have hled : (tick t s).1.led =
          { ledPinOn := false, ledIsOn := false, ledBlinkStartTime := t0 } := by
        rw [tick_led, ledAfterTick, if_neg hf, if_pos hcond, h]
      have hoffrun := led_off_latch_run ts (tick t s).1 (by rw [hled]) h2
      rw [run_cons, hoffrun, hled,
          if_pos (by simp only [List.any_cons, Bool.or_eq_true, decide_eq_true_eq];
                     exact Or.inl hq)]
    · have hled : (tick t s).1.led =
          { ledPinOn := true, ledIsOn := true, ledBlinkStartTime := t0 } := by
        rw [tick_led, ledAfterTick, if_neg hf,
            if_neg (by rw [h]; intro hc; exact hq hc.2), h]
      rw [run_cons, ih (tick t s).1 t0 hled h2]
      have hany : (t :: ts).any (fun x => decide (ledBlinkDuration ≤ usub x.now t0))
          = ts.any (fun x => decide (ledBlinkDuration ≤ usub x.now t0)) := by
        simp [List.any_cons, hq]
      rw [hany]

/-- C7: a successful sensor read at time `t0` leaves the LED ON with the
pending-blink flag armed and start time `t0`; over any following ticks in
which the sensor task does not run, the LED turns OFF exactly once — it is
still ON (flag armed) as long as every tick satisfies
`now - t0 < ledBlinkDuration`, and it is OFF with the flag cleared as soon
as some tick satisfies `now - t0 ≥ ledBlinkDuration` — and the cleared flag
keeps the check from firing again. -/
theorem success_blink_off (s : ProgState) (inp : TickInput) (l : List TickInput)
    (hfire : sensorFires inp s) (hgood : badReading inp.bme = false)
    (hnr : noReadB (tick inp s).1 l = true) :
    (run (tick inp s).1 l).led =
      (if l.any (fun t => decide (ledBlinkDuration ≤ usub t.now inp.now)) = true then
        { ledPinOn := false, ledIsOn := false, ledBlinkStartTime := inp.now }
      else
        { ledPinOn := true, ledIsOn := true, ledBlinkStartTime := inp.now }) := by
  have h0 := tick_led inp s
  rw [ledAfterTick, if_pos hfire,
      if_neg (by rw [hgood]; exact Bool.false_ne_true)] at h0
  exact blink_run l (tick inp s).1 inp.now h0 hnr

theorem success_blink_off_witness :
    (run (tick ⟨1000, true, ⟨some 25, some 40, some 101325, some 5⟩⟩ (progInit 0)).1
        [⟨1030, true, ⟨none, none, none, none⟩⟩,
         ⟨1060, true, ⟨none, none, none, none⟩⟩]).led =
      { ledPinOn := false, ledIsOn := false, ledBlinkStartTime := 1000 } := by
  have h := success_blink_off (progInit 0)
    ⟨1000, true, ⟨some 25, some 40, some 101325, some 5⟩⟩
    [⟨1030, true, ⟨none, none, none, none⟩⟩, ⟨1060, true, ⟨none, none, none, none⟩⟩]
    (by decide) (by decide) (by decide)
  rw [h]
  decide

/-! ## C10 — joint NaN-ness of the cached sensor values -/

/-- All five cached sensor values are NaN. -/
def allNaNB (c : SensorCache) : Bool :=
  c.currentTemperature.isNone && c.currentHumidity.isNone &&
  c.currentPressureMbar.isNone && c.currentPressureAtm.isNone &&
  c.currentAltitude.isNone

/-- None of the five cached sensor values is NaN. -/
def allFiniteB (c : SensorCache) : Bool :=
  !c.currentTemperature.isNone && !c.currentHumidity.isNone &&
  !c.currentPressureMbar.isNone && !c.currentPressureAtm.isNone &&
  !c.currentAltitude.isNone

/-- Some tick of the trace performs a successful sensor read. -/
def successInB (s : ProgState) : List TickInput → Bool
  | [] => false
  | t :: ts =>
      (decide (sensorFires t s) && !badReading t.bme) || successInB (tick t s).1 ts

/-- Every tick of the trace that performs a successful read also obtains a
finite (non-NaN) value from the separate `readAltitude` access. -/
def goodAltB (s : ProgState) : List TickInput → Bool
  | [] => true
  | t :: ts =>
      (!(decide (sensorFires t s) && !badReading t.bme) || !t.bme.altitude.isNone) &&
      goodAltB (tick t s).1 ts

theorem fdiv_isNone (x : FVal) (c : ℚ) : (fdiv x c).isNone = x.isNone := by
  cases x <;> rfl

/-- C10 (counterexample): the joint NaN-ness claim fails on the code.
`readSensors` checks only temp/hum/pres before committing and assigns
`currentAltitude` from a separate, unchecked `bme.readAltitude` access
(`part_001` line 87), so a reachable tick whose three primary readings
succeed while the altitude access yields NaN produces a cache whose
temperature is non-NaN while its altitude is NaN — a mixed state the claim
says is never produced. -/
theorem mixed_nan_cache_reachable :
    ((run (progInit 0)
        [⟨1000, true, ⟨some 25, some 40, some 101325, none⟩⟩]).cache.currentTemperature).isSome
      = true ∧
    ((run (progInit 0)
        [⟨1000, true, ⟨some 25, some 40, some 101325, none⟩⟩]).cache.currentAltitude).isNone
      = true := by
  decide

/-- C10 (amended): provided every successful read's separate altitude
access returns a finite value, the cache is jointly NaN before the first
successful read and jointly non-NaN from it onward: from a start whose
cache is jointly NaN (as initialisation leaves it) or already jointly
non-NaN, after any trace the cache is again jointly NaN or jointly non-NaN,
and it is jointly non-NaN exactly when it already was or some tick read
successfully; failed reads change no cached value. -/
theorem cache_jointly_nan_invariant (l : List TickInput) : ∀ s : ProgState,
    goodAltB s l = true →
    (allNaNB s.cache = true ∨ allFiniteB s.cache = true) →
    ((allNaNB (run s l).cache = true ∨ allFiniteB (run s l).cache = true) ∧
     (allFiniteB (run s l).cache = true ↔
        (allFiniteB s.cache = true ∨ successInB s l = true))) := by
  induction l with
  | nil =>
    intro s _ hinv
    rw [run_nil]
    exact ⟨hinv, by simp [successInB]⟩
  | cons t ts ih =>
    intro s hga hinv
    simp only [goodAltB, Bool.and_eq_true] at hga
    obtain ⟨hg1, hg2⟩ := hga
    rw [run_cons]
    by_cases hs : (decide (sensorFires t s) && !badReading t.bme) = true
    · have hsp := (Bool.and_eq_true _ _).mp hs
      have hf : sensorFires t s := of_decide_eq_true hsp.1
      have hgood : badReading t.bme = false := by
        have h2 := hsp.2
        cases hbb : badReading t.bme
        · rfl
        · rw [hbb] at h2
          simp at h2
      have halt : t.bme.altitude.isNone = false := by
        rcases (Bool.or_eq_true _ _).mp hg1 with hA | hA
        · rw [hs] at hA
          simp at hA
        · cases hbb : (t.bme.altitude).isNone
          · rfl
          · rw [hbb] at hA
            simp at hA
      have htrip : t.bme.temp.isNone = false ∧ t.bme.hum.isNone = false ∧
          t.bme.pres.isNone = false := by
        unfold badReading at hgood
        refine ⟨?_, ?_, ?_⟩ <;>
          [cases hx : t.bme.temp.isNone; cases hx : t.bme.hum.isNone;
           cases hx : t.bme.pres.isNone] <;>
          first
            | rfl
            | (rw [hx] at hgood; simp at hgood)
      have hcache : (tick t s).1.cache = (readSensors t.bme t.now s.cache s.led).1 := by
        rw [tick_cache, if_pos hf]
      have hfin : allFiniteB (tick t s).1.cache = true := by
        rw [hcache]
        unfold readSensors
        rw [if_neg (by rw [hgood]; exact Bool.false_ne_true)]
        simp [allFiniteB, fdiv_isNone, htrip.1, htrip.2.1, htrip.2.2, halt]
      obtain ⟨ihA, ihB⟩ := ih (tick t s).1 hg2 (Or.inr hfin)
      refine ⟨ihA, ?_⟩
      rw [ihB]
      have hsucc : successInB s (t :: ts) = true := by
        simp [successInB, hs]
      simp [hsucc, hfin]
    · have hns : (decide (sensorFires t s) && !badReading t.bme) = false := by
        cases hbb : (decide (sensorFires t s) && !badReading t.bme)
        · rfl
        · exact absurd hbb hs
      have hflag : allNaNB (tick t s).1.cache = allNaNB s.cache ∧
          allFiniteB (tick t s).1.cache = allFiniteB s.cache := by
        rw [tick_cache]
        by_cases hf : sensorFires t s
        · have hbad : badReading t.bme = true := by
            cases hbb : badReading t.bme
            · exfalso
              apply hs
              simp [hf, hbb]
            · rfl
          rw [if_pos hf]
          unfold readSensors
          rw [if_pos hbad]
          exact ⟨rfl, rfl⟩
        · rw [if_neg hf]
          exact ⟨rfl, rfl⟩
      have hinv2 : allNaNB (tick t s).1.cache = true ∨
          allFiniteB (tick t s).1.cache = true := by
        rcases hinv with h | h
        · exact Or.inl (by rw [hflag.1]; exact h)
        · exact Or.inr (by rw [hflag.2]; exact h)
      obtain ⟨ihA, ihB⟩ := ih (tick t s).1 hg2 hinv2
      refine ⟨ihA, ?_⟩
      rw [ihB, hflag.2]
      have hsucc : successInB s (t :: ts) = successInB (tick t s).1 ts := by
        simp [successInB, hns]
      rw [hsucc]

theorem cache_jointly_nan_invariant_witness :
    ((allNaNB (run (progInit 0)
        [⟨1000, true, ⟨some 25, some 40, some 101325, some 5⟩⟩]).cache = true ∨
      allFiniteB (run (progInit 0)
        [⟨1000, true, ⟨some 25, some 40, some 101325, some 5⟩⟩]).cache = true) ∧
     (allFiniteB (run (progInit 0)
        [⟨1000, true, ⟨some 25, some 40, some 101325, some 5⟩⟩]).cache = true ↔
        (allFiniteB (progInit 0).cache = true ∨
         successInB (progInit 0)
           [⟨1000, true, ⟨some 25, some 40, some 101325, some 5⟩⟩] = true))) :=
  cache_jointly_nan_invariant
    [⟨1000, true, ⟨some 25, some 40, some 101325, some 5⟩⟩] (progInit 0)
    (by decide) (Or.inl (by decide))

/-! ## C1 — debounced input and hold classifier (spec §4.1)

No hold classifier exists in the sources under `src/`: every variant fires
its single button action on the debounced press edge and has no
long-press/short-press distinction.  The component below is therefore
modelled from the specification's own algorithm (§4.1), which the claim is
about. -/

/-- Modelled from the spec: the hold-classification threshold of §4.1/§8
(`holdThreshold` = 1000 ms); missing from `src/`, where no long-press
handling exists. -/
def holdThreshold : ℕ := 1000

/-- Modelled from the spec: the ephemeral press episode of §3 —
`{start_time, hold_triggered}`, created on the debounced RELEASED→PRESSED
transition and destroyed on the PRESSED→RELEASED transition;
`hold_triggered` is set at most once per episode. -/
structure Episode where
  start_time : ℕ
  hold_triggered : Bool
deriving DecidableEq

/-- The two edge events of §4.1, each delivered at most once per episode. -/
inductive BtnEvent where
  | shortPressReleased
  | holdTriggered
deriving DecidableEq

/-- Modelled from the spec: the state of the debounced-input-and-hold
classifier of §4.1.  `raw = true` is ACTIVE (pressed), `debounced = true`
the PRESSED state.  `epCount` is instrumentation only: it counts the events
emitted since the current episode began (reset when an episode is created)
and does not influence the dynamics. -/
structure HoldState where
  rawPrev : Bool
  debounceTimer : ℕ
  debounced : Bool
  episode : Option Episode
  epCount : ℕ
deriving DecidableEq

/-- Modelled from the spec (§4.1): the hold check, made while the debounced
state still holds the value the tick entered with — while it is PRESSED and
the hold has not fired, reaching `holdThreshold` sets `hold_triggered` and
emits the hold event exactly once (§3: "set at most once per episode"; §8:
"a press held ≥ holdThreshold fires hold"). -/
def holdCheck (debounced : Bool) (ep : Option Episode) (now : ℕ) :
    Option Episode × List BtnEvent :=
  match ep with
  | some e =>
      if debounced = true ∧ e.hold_triggered = false ∧
          holdThreshold ≤ now - e.start_time then
        (some { start_time := e.start_time, hold_triggered := true },
         [BtnEvent.holdTriggered])
      else (some e, [])
  | none => (none, [])

/-- Modelled from the spec (§4.1): the event of a debounced
PRESSED→RELEASED transition — `short_press_released` exactly when the hold
has not fired and the episode stayed below `holdThreshold`; a release after
the hold emits nothing. -/
def releaseEvents (ep : Option Episode) (now : ℕ) : List BtnEvent :=
  match ep with
  | some e =>
      if e.hold_triggered = false ∧ now - e.start_time < holdThreshold then
        [BtnEvent.shortPressReleased]
      else []
  | none => []

/-- Modelled from the spec (§4.1): one tick of the classifier.  Any raw
change resets the debounce timer to `now`; the hold check runs against the
debounced state the tick entered with; once the raw sample has been stable
for more than `debounceDelay` the debounced state may change —
RELEASED→PRESSED opens a fresh episode, PRESSED→RELEASED emits the release
classification and discards the episode regardless of outcome. -/
def holdStep (s : HoldState) (now : ℕ) (raw : Bool) : HoldState × List BtnEvent :=
  let t := if raw ≠ s.rawPrev then now else s.debounceTimer
  let hold := holdCheck s.debounced s.episode now
  if debounceDelay < now - t ∧ raw ≠ s.debounced then
    if raw = true then
      ({ rawPrev := raw, debounceTimer := t, debounced := raw,
         episode := some { start_time := now, hold_triggered := false },
         epCount := hold.2.length }, hold.2)
    else
      ({ rawPrev := raw, debounceTimer := t, debounced := raw, episode := none,
         epCount := s.epCount + (hold.2 ++ releaseEvents hold.1 now).length },
       hold.2 ++ releaseEvents hold.1 now)
  else
    ({ rawPrev := raw, debounceTimer := t, debounced := s.debounced,
       episode := hold.1, epCount := s.epCount + hold.2.length }, hold.2)

/-- The classifier invariant: an episode exists exactly while the debounced
state is PRESSED, and the number of events emitted since that episode began
is 0 before the hold fires and 1 after it. -/
def HoldInv (s : HoldState) : Prop :=
  (s.debounced = true →
    ∃ e, s.episode = some e ∧ s.epCount = (if e.hold_triggered then 1 else 0)) ∧
  (s.debounced = false → s.episode = none)

/-- The classifier's initial state (line released, no episode) satisfies
the invariant. -/
theorem holdInv_init :
    HoldInv { rawPrev := false, debounceTimer := 0, debounced := false,
              episode := none, epCount := 0 } := by
  unfold HoldInv
  exact ⟨fun h => (nomatch h), fun _ => rfl⟩

/-- C1: in the spec's debounce-and-hold classifier, every tick preserves
the classifier invariant, and at the tick where a press episode ends
(debounced PRESSED→RELEASED) the events emitted during the whole episode
number exactly one: the ending tick emits nothing when the hold already
fired (release after a hold emits nothing, the hold having been the
episode's single event), `holdTriggered` alone when the threshold is
reached only at the ending tick, and `shortPressReleased` alone when the
episode stayed below `holdThreshold` — never both events and never
neither. -/
theorem press_episode_exactly_one_event (s : HoldState) (now : ℕ) (raw : Bool)
    (hinv : HoldInv s) :
    HoldInv (holdStep s now raw).1 ∧
    (∀ e2, s.episode = some e2 → s.debounced = true →
      (holdStep s now raw).1.debounced = false →
      ((holdStep s now raw).1.epCount = 1 ∧
       (holdStep s now raw).2 =
         (if e2.hold_triggered = true then []
          else if holdThreshold ≤ now - e2.start_time then [BtnEvent.holdTriggered]
          else [BtnEvent.shortPressReleased]))) := by
  obtain ⟨hinv1, hinv2⟩ := hinv
  unfold holdStep
  dsimp only
  rcases hep : s.episode with _ | e
  · -- between episodes: the debounced state is RELEASED
    have hdeb : s.debounced = false := by
      cases hd : s.debounced
      · rfl
      · obtain ⟨e0, he0, -⟩ := hinv1 hd
        rw [hep] at he0
        exact Option.noConfusion he0
    have hch : holdCheck s.debounced none now = (none, []) := rfl
    rw [hch]
    dsimp only
    by_cases htr : debounceDelay <
        (now - if raw ≠ s.rawPrev then now else s.debounceTimer) ∧ raw ≠ s.debounced
    · have hraw : raw = true := by
        rcases htr with ⟨-, h2⟩
        rw [hdeb] at h2
        cases raw
        · exact absurd rfl h2
        · rfl
      rw [if_pos htr, if_pos hraw]
      dsimp only
      constructor
      · unfold HoldInv
        dsimp only
        refine ⟨fun _ => ⟨⟨now, false⟩, rfl, rfl⟩, fun hc => ?_⟩
        rw [hraw] at hc
        exact Bool.noConfusion hc
      · intro e2 he2 _ _
        exact Option.noConfusion he2
    · rw [if_neg htr]
      dsimp only
      constructor
      · unfold HoldInv
        dsimp only
        exact ⟨fun hc => absurd hc (by simp [hdeb]), fun _ => rfl⟩
      · intro e2 he2 _ _
        exact Option.noConfusion he2
  · -- inside an episode: the debounced state is PRESSED
    have hdeb : s.debounced = true := by
      cases hd : s.debounced
      · rw [hinv2 hd] at hep
        exact Option.noConfusion hep
      · rfl
    have hcount : s.epCount = (if e.hold_triggered then 1 else 0) := by
      obtain ⟨e0, he0, hc⟩ := hinv1 hdeb
      rw [hep] at he0
      injection he0 with h
      rw [← h] at hc
      exact hc
    by_cases hT : e.hold_triggered = true
    · -- the hold already fired earlier in the episode
      have hnc : ¬ (s.debounced = true ∧ e.hold_triggered = false ∧
          holdThreshold ≤ now - e.start_time) := by
        simp [hT]
      have hch : holdCheck s.debounced (some e) now = (some e, []) := by
        simp only [holdCheck]
        rw [if_neg hnc]
      have hre : releaseEvents (some e) now = [] := by
        simp only [releaseEvents]
        rw [if_neg (show ¬ (e.hold_triggered = false ∧
            now - e.start_time < holdThreshold) by simp [hT])]
      rw [hch]
      dsimp only
      rw [hre]
      by_cases htr : debounceDelay <
          (now - if raw ≠ s.rawPrev then now else s.debounceTimer) ∧ raw ≠ s.debounced
      · have hraw : raw = false := by
          rcases htr with ⟨-, h2⟩
          rw [hdeb] at h2
          cases raw
          · rfl
          · exact absurd rfl h2
        have hnraw : ¬ (raw = true) := by
          rw [hraw]
          exact Bool.false_ne_true
        rw [if_pos htr, if_neg hnraw]
        dsimp only
        constructor
        · unfold HoldInv
          dsimp only
          refine ⟨fun hc => ?_, fun _ => rfl⟩
          rw [hraw] at hc
          exact Bool.noConfusion hc
        · intro e2 he2 _ _
          injection he2 with h2e
          refine ⟨by simp [hcount, hT], ?_⟩
          rw [← h2e]
          simp [hT]
      · rw [if_neg htr]
        dsimp only
        constructor
        · unfold HoldInv
          dsimp only
          exact ⟨fun _ => ⟨e, rfl, by simp [hcount]⟩,
                 fun hc => absurd hc (by simp [hdeb])⟩
        · intro e2 _ _ hrel
          exact absurd hrel (by simp [hdeb])
    · have hT2 : e.hold_triggered = false := by
        cases hbb : e.hold_triggered
        · rfl
        · exact absurd hbb hT
      by_cases hH : holdThreshold ≤ now - e.start_time
      · -- the threshold is reached while still PRESSED: the hold fires now
        have hch : holdCheck s.debounced (some e) now =
            (some { start_time := e.start_time, hold_triggered := true },
             [BtnEvent.holdTriggered]) := by
          simp only [holdCheck]
          rw [if_pos ⟨hdeb, hT2, hH⟩]
        have hre : releaseEvents
            (some { start_time := e.start_time, hold_triggered := true }) now = [] := by
          simp [releaseEvents]
        rw [hch]
        dsimp only
        rw [hre]
        by_cases htr : debounceDelay <
            (now - if raw ≠ s.rawPrev then now else s.debounceTimer) ∧ raw ≠ s.debounced
        · have hraw : raw = false := by
            rcases htr with ⟨-, h2⟩
            rw [hdeb] at h2
            cases raw
            · rfl
            · exact absurd rfl h2
          have hnraw : ¬ (raw = true) := by
            rw [hraw]
            exact Bool.false_ne_true
          rw [if_pos htr, if_neg hnraw]
          dsimp only
          constructor
          · unfold HoldInv
            dsimp only
            refine ⟨fun hc => ?_, fun _ => rfl⟩
            rw [hraw] at hc
            exact Bool.noConfusion hc
          · intro e2 he2 _ _
            injection he2 with h2e
            refine ⟨by simp [hcount, hT2], ?_⟩
            rw [← h2e]
            simp [hT2, hH]
        · rw [if_neg htr]
          dsimp only
          constructor
          · unfold HoldInv
            dsimp only
            exact ⟨fun _ => ⟨{ start_time := e.start_time, hold_triggered := true },
                       rfl, by simp [hcount, hT2]⟩,
                   fun hc => absurd hc (by simp [hdeb])⟩
          · intro e2 _ _ hrel
            exact absurd hrel (by simp [hdeb])
      · -- still below the threshold
        have hch : holdCheck s.debounced (some e) now = (some e, []) := by
          simp only [holdCheck]
          rw [if_neg (show ¬ (s.debounced = true ∧ e.hold_triggered = false ∧
              holdThreshold ≤ now - e.start_time) by simp [hH])]
        have hre : releaseEvents (some e) now = [BtnEvent.shortPressReleased] := by
          simp only [releaseEvents]
          rw [if_pos ⟨hT2, lt_of_not_le hH⟩]
        rw [hch]
        dsimp only
        rw [hre]
        by_cases htr : debounceDelay <
            (now - if raw ≠ s.rawPrev then now else s.debounceTimer) ∧ raw ≠ s.debounced
        · have hraw : raw = false := by
            rcases htr with ⟨-, h2⟩
            rw [hdeb] at h2
            cases raw
            · rfl
            · exact absurd rfl h2
          have hnraw : ¬ (raw = true) := by
            rw [hraw]
            exact Bool.false_ne_true
          rw [if_pos htr, if_neg hnraw]
          dsimp only
          constructor
          · unfold HoldInv
            dsimp only
            refine ⟨fun hc => ?_, fun _ => rfl⟩
            rw [hraw] at hc
            exact Bool.noConfusion hc
          · intro e2 he2 _ _
            injection he2 with h2e
            refine ⟨by simp [hcount, hT2], ?_⟩
            rw [← h2e]
            simp [hT2, hH]
        · rw [if_neg htr]
          dsimp only
          constructor
          · unfold HoldInv
            dsimp only
            exact ⟨fun _ => ⟨e, rfl, by simp [hcount]⟩,
                   fun hc => absurd hc (by simp [hdeb])⟩
          · intro e2 _ _ hrel
            exact absurd hrel (by simp [hdeb])

theorem press_episode_exactly_one_event_witness :
    (holdStep ⟨false, 0, true, some ⟨0, false⟩, 0⟩ 60 false).1.epCount = 1 ∧
    (holdStep ⟨false, 0, true, some ⟨0, false⟩, 0⟩ 60 false).2 =
      [BtnEvent.shortPressReleased] := by
  have h := press_episode_exactly_one_event ⟨false, 0, true, some ⟨0, false⟩, 0⟩ 60 false
    (by unfold HoldInv
        exact ⟨fun _ => ⟨⟨0, false⟩, rfl, rfl⟩, fun hc => (nomatch hc)⟩)
  have h2 := h.2 ⟨0, false⟩ rfl rfl (by decide)
  refine ⟨h2.1, ?_⟩
  rw [h2.2]
  decide

/-! ## C9 — sleep/wake round trip (spec §4.4)

No sleep/power controller exists under `src/`: the spec's §4.4 describes
one, while the closest source variant (`src/src/main.cpp`) only toggles the
screen-power pin on a short press and has no hold-triggered sleep, halt or
wake.  The component below is modelled from the specification. -/

/-- Modelled from the spec: the whole-system state the power controller of
§4.4 acts on — the scheduler/input/display/sensor core plus the power flag.
The controller itself is missing from `src/`. -/
structure SysState where
  core : ProgState
  powerActive : Bool
deriving DecidableEq

/-- Modelled from the spec (§4.3/§4.4, sleep entry): the indicator is
forced OFF unconditionally, the pending-blink flag is cleared overriding
any unresolved error state, and the system goes inactive; nothing else is
touched before the halt. -/
def sleepEnter (s : SysState) : SysState :=
  { core := { s.core with
      led := { ledPinOn := false, ledIsOn := false,
               ledBlinkStartTime := s.core.led.ledBlinkStartTime } },
    powerActive := false }

/-- Modelled from the spec (§4.2/§4.4, resume): the indicator is forced
OFF, both scheduler timestamps are rebased to `now - period - 1` so both
tasks run immediately on the first post-wake tick, and the debounced
input's last-known raw/stable state is re-synchronised to the pin's current
level so the release that caused the wake is not reinterpreted as a new
press edge. -/
def wake (s : SysState) (now : ℕ) (pin : Bool) : SysState :=
  { core := { s.core with
      lastSensorReadTime := now - sensorReadInterval - 1,
      lastDisplayUpdateTime := now - displayUpdateInterval - 1,
      buttonState := pin, lastButtonState := pin,
      led := { s.core.led with ledPinOn := false } },
    powerActive := true }

/-- A complete sleep/wake cycle of the power controller. -/
def sleepWakeCycle (s : SysState) (now : ℕ) (pin : Bool) : SysState :=
  wake (sleepEnter s) now pin

/-- C9 (counterexample): the claim that only the power state, indicator
state and scheduler timestamps are reset is refuted by the debounced-input
re-synchronisation that §4.4 itself mandates: sleeping from the mid-hold
state (debounced button PRESSED, as it is when the hold triggers sleep) and
waking with the line released changes the debounced button state as well.
-/
theorem sleep_wake_resyncs_debounced_input :
    (sleepWakeCycle
        ⟨⟨0, 0, 0, false, false, DisplayMode.PRESSURE_MBAR, initCache, initLed⟩, true⟩
        5000 true).core.buttonState ≠
      (⟨0, 0, 0, false, false, DisplayMode.PRESSURE_MBAR, initCache,
        initLed⟩ : ProgState).buttonState := by
  decide

/-- C9 (amended): a complete sleep/wake cycle leaves the display mode
cursor and the entire sensor cache (error flag included) equal to their
pre-sleep values; the power state, the indicator (forced OFF, pending blink
cleared), and the two scheduler last-run timestamps (rebased to
`now - period - 1`) are reset, and additionally the debounced input's
raw/stable state is re-synchronised to the current pin level; the debounce
timer and the recorded blink start time are also untouched. -/
theorem sleep_wake_round_trip (s : SysState) (now : ℕ) (pin : Bool) :
    (sleepWakeCycle s now pin).core.currentDisplayMode
        = s.core.currentDisplayMode ∧
    (sleepWakeCycle s now pin).core.cache = s.core.cache ∧
    (sleepWakeCycle s now pin).powerActive = true ∧
    (sleepWakeCycle s now pin).core.led.ledPinOn = false ∧
    (sleepWakeCycle s now pin).core.led.ledIsOn = false ∧
    (sleepWakeCycle s now pin).core.lastSensorReadTime
        = now - sensorReadInterval - 1 ∧
    (sleepWakeCycle s now pin).core.lastDisplayUpdateTime
        = now - displayUpdateInterval - 1 ∧
    (sleepWakeCycle s now pin).core.buttonState = pin ∧
    (sleepWakeCycle s now pin).core.lastButtonState = pin ∧
    (sleepWakeCycle s now pin).core.lastDebounceTime = s.core.lastDebounceTime ∧
    (sleepWakeCycle s now pin).core.led.ledBlinkStartTime
        = s.core.led.ledBlinkStartTime := by
  simp [sleepWakeCycle, wake, sleepEnter]

end StmTempSensor
